import Mathlib

/-!
Verification development for the capacitor-inline-pdf plugin.

Shallow embedding of the zoom/pan/page-render coordinator implemented by the
Android `InlinePDFView` (with its `PDFPageAdapter`) and `ZoomableImageView`,
together with the iOS `InlinePDFViewController` and the web fallback
(`web.ts`), restricted to the parts the claims are about.  Kotlin/Swift
`Float`/`CGFloat` values are modelled as rationals; the concrete inputs used
below are all exactly representable in binary32, so the float computations
they exercise are exact.
-/

namespace InlinePDF

/-- Events and side-effect actions emitted by the viewer components:
zoom-changed listener invocations, the visual-transform reset, the bitmap
cache invalidation, the adapter-wide re-render trigger, and the gesture-end
callback. -/
inductive Ev where
  | zoomChanged (z : ℚ)
  | resetVisualTransform
  | clearCache
  | notifyRerender
  | gestureEnd
deriving DecidableEq, Repr

/-! ## Page bitmap cache (`PDFPageAdapter.renderPage`, InlinePDFView.kt 536-545)

The adapter's `bitmapCache` is a `ConcurrentHashMap<Int, Bitmap>`.  We model
it as an association list in insertion order; for the small non-negative
integer page keys used here the hash map's iteration order is ascending key
order, which coincides with insertion order in the sequential-insertion
scenarios the claims describe.  Bitmaps are identified by a natural number. -/

/-- Eviction-then-insert step of `renderPage`: when the cache already holds
at least 5 entries, the oldest `size - 3` entries (the keys returned first by
iteration, `keys.take(size - 3)`) are removed, then the new entry is stored. -/
def cachePut (c : List (ℕ × ℕ)) (k v : ℕ) : List (ℕ × ℕ) :=
  let c₁ := if 5 ≤ c.length then c.drop (c.length - 3) else c
  c₁.filter (fun e => e.1 != k) ++ [(k, v)]

/-- Cache lookup, `bitmapCache[position]`. -/
def cacheGet (c : List (ℕ × ℕ)) (k : ℕ) : Option ℕ :=
  (c.find? (fun e => e.1 = k)).map (fun e => e.2)

/-- Pages 0..5 rendered (and hence inserted) sequentially into an initially
empty cache, the scenario of the cache claim. -/
def cacheInsertSeq : List (ℕ × ℕ) :=
  [0, 1, 2, 3, 4, 5].foldl (fun c p => cachePut c p p) []

/-! ## Rasterizer target dimensions (`PDFPageAdapter.renderPage`, 506-517) -/

/-- Kotlin `Float.toInt()`: truncation toward zero, computed as the
truncating division of the numerator by the denominator. -/
def ratTrunc (q : ℚ) : ℤ :=
  q.num.tdiv (q.den : ℤ)

/-- Floor of a rational, computed as Euclidean division of the numerator by
the (positive) denominator. -/
def ratFloor (q : ℚ) : ℤ :=
  q.num.ediv (q.den : ℤ)

/-- Round-half-up of a rational: the floor of `q + 1/2`. -/
def ratRound (q : ℚ) : ℤ :=
  ratFloor (q + 1/2)

/-- Target pixel dimensions computed by `renderPage`: both axes are
truncations of `pageSize * scale`; only the width is compared against the
8192 limit, and when it exceeds the limit the height is rescaled by
`maxWidth / width` and truncated again. -/
def renderDims (pw ph scale : ℚ) : ℤ × ℤ :=
  let w := ratTrunc (pw * scale)
  let h := ratTrunc (ph * scale)
  if 8192 < w then
    let ratio : ℚ := (8192 : ℚ) / (w : ℚ)
    (8192, ratTrunc ((h : ℚ) * ratio))
  else (w, h)

/-- Modelled from the spec: target pixel dimensions as
`round(pageIntrinsicSize * targetScale)`, capped by a maximum pixel dimension
of 8192 in either axis, the capped axis recomputing the other proportionally
from the intrinsic aspect ratio.  This definition follows the spec's words
and exists only to be compared with `renderDims`, which follows the code. -/
def specDims (pw ph scale : ℚ) : ℤ × ℤ :=
  let w := ratRound (pw * scale)
  let h := ratRound (ph * scale)
  if w ≤ 8192 ∧ h ≤ 8192 then (w, h)
  else if h ≤ w then (8192, ratRound ((ph / pw) * 8192))
  else (ratRound ((pw / ph) * 8192), 8192)

/-! ## Web fallback (`web.ts`) -/

/-- Per-viewer state kept by `InlinePDFWeb` (the `state` object stored in the
`viewers` map). -/
structure WebViewerState where
  currentPage : ℤ
  totalPages : ℕ
  zoom : ℚ
  isLoading : Bool
deriving DecidableEq, Repr

/-- `InlinePDFWeb.goToPage`: `viewer.state.currentPage = options.page`, with
no range check. -/
def webGoToPage (v : WebViewerState) (p : ℤ) : WebViewerState :=
  {v with currentPage := p}

/-- `InlinePDFWeb.getState`: returns the stored state unchanged. -/
def webGetState (v : WebViewerState) : WebViewerState := v

/-- `InlinePDFWeb.resetZoom`: `viewer.state.zoom = 1`; the web implementation
notifies no listener. -/
def webResetZoom (v : WebViewerState) : WebViewerState × List Ev :=
  ({v with zoom := 1}, [])

/-! ## Android `InlinePDFView` navigation state (InlinePDFView.kt 252-271) -/

/-- The fields of `InlinePDFView` that `goToPage`/`getState` read and write. -/
structure AndroidPdfState where
  currentPageIndex : ℤ
  totalPages : ℕ
  scaleFactor : ℚ
  isLoading : Bool
deriving DecidableEq, Repr

/-- The `PDFState` record returned by `getState`. -/
structure PDFStateR where
  currentPage : ℤ
  totalPages : ℕ
  zoom : ℚ
  isLoading : Bool
deriving DecidableEq, Repr

/-- `InlinePDFView.goToPage`: converts to a 0-based index and commits it only
when `0 <= pageIndex < totalPages`; otherwise the method returns without any
state change (and without invoking any callback). -/
def goToPage (s : AndroidPdfState) (pageNumber : ℤ) : AndroidPdfState :=
  let pageIndex := pageNumber - 1
  if 0 ≤ pageIndex ∧ pageIndex < (s.totalPages : ℤ) then
    {s with currentPageIndex := pageIndex}
  else s

/-- `InlinePDFView.getState`. -/
def getState (s : AndroidPdfState) : PDFStateR :=
  ⟨s.currentPageIndex + 1, s.totalPages, s.scaleFactor, s.isLoading⟩

/-! ## iOS `InlinePDFViewController.resetZoom` -/

/-- The scale factor of the iOS `PDFView`. -/
structure IOSPdfState where
  scaleFactor : ℚ
deriving DecidableEq, Repr

/-- iOS `resetZoom`: sets `pdfView.scaleFactor = 1.0` and invokes
`onZoomChanged?(1.0)` once. -/
def iosResetZoom (_s : IOSPdfState) : IOSPdfState × List Ev :=
  (⟨1⟩, [Ev.zoomChanged 1])

/-- Number of `zoomChanged` notifications in an event list. -/
def countZoomEvents (l : List Ev) : ℕ :=
  (l.filter (fun e => match e with | Ev.zoomChanged _ => true | _ => false)).length

/-! ## `ZoomableImageView` (ZoomableImageView.kt)

The image matrix is used only through `reset`, `postTranslate`,
`postScale(f, f, px, py)` and reads of its translation components, so it is
modelled as independent per-axis affine data. -/

/-- Android `graphics.Matrix` restricted to the operations the view uses. -/
structure TMatrix where
  sx : ℚ
  sy : ℚ
  tx : ℚ
  ty : ℚ
deriving DecidableEq, Repr

/-- `Matrix.reset()`. -/
def TMatrix.reset : TMatrix := ⟨1, 1, 0, 0⟩

/-- `Matrix.postTranslate(dx, dy)`. -/
def TMatrix.postTranslate (m : TMatrix) (dx dy : ℚ) : TMatrix :=
  {m with tx := m.tx + dx, ty := m.ty + dy}

/-- `Matrix.postScale(f, f, px, py)`: uniform scale about the pivot. -/
def TMatrix.postScale (m : TMatrix) (f px py : ℚ) : TMatrix :=
  ⟨f * m.sx, f * m.sy, f * m.tx + (1 - f) * px, f * m.ty + (1 - f) * py⟩

/-- Gesture-mode constant `NONE`. -/
def NONE : ℕ := 0
/-- Gesture-mode constant `DRAG`. -/
def DRAG : ℕ := 1
/-- Gesture-mode constant `ZOOM`. -/
def ZOOM : ℕ := 2
/-- Scroll-direction constant `DIRECTION_NONE`. -/
def DIRECTION_NONE : ℕ := 0
/-- Scroll-direction constant `DIRECTION_HORIZONTAL`. -/
def DIRECTION_HORIZONTAL : ℕ := 1
/-- Scroll-direction constant `DIRECTION_VERTICAL`. -/
def DIRECTION_VERTICAL : ℕ := 2
/-- Pixel threshold `SCROLL_THRESHOLD` used to classify scroll direction. -/
def SCROLL_THRESHOLD : ℚ := 10

/-- The mutable state of a `ZoomableImageView`: image matrix, committed scale
and its bounds, feature flags, per-gesture bookkeeping (`last`, `start`,
`mode`, `scrollDirection`), the parent's disallow-intercept flag as last set
by this view, the view dimensions, and the drawable's intrinsic size. -/
structure ZIVState where
  matrix : TMatrix
  scale : ℚ
  minScale : ℚ
  maxScale : ℚ
  zoomEnabled : Bool
  panEnabled : Bool
  last : ℚ × ℚ
  start : ℚ × ℚ
  mode : ℕ
  scrollDirection : ℕ
  disallowIntercept : Bool
  viewW : ℚ
  viewH : ℚ
  drawable : Option (ℚ × ℚ)
deriving DecidableEq, Repr

/-- `getImageWidth()`: the drawable's intrinsic width times the committed
scale (0 when no drawable is set). -/
def getImageWidth (s : ZIVState) : ℚ :=
  match s.drawable with
  | none => 0
  | some d => d.1 * s.scale

/-- `getImageHeight()`. -/
def getImageHeight (s : ZIVState) : ℚ :=
  match s.drawable with
  | none => 0
  | some d => d.2 * s.scale

/-- `getFixTranslation(trans, viewSize, contentSize)`: the correction that,
added to `trans`, clamps it between `minTrans` and `maxTrans`. -/
def getFixTranslation (trans viewSize contentSize : ℚ) : ℚ :=
  let minTrans := if contentSize ≤ viewSize then 0 else viewSize - contentSize
  let maxTrans := if contentSize ≤ viewSize then viewSize - contentSize else 0
  if trans < minTrans then minTrans - trans
  else if maxTrans < trans then maxTrans - trans
  else 0

/-- `fixTranslation()`: reads the matrix translation, computes the per-axis
corrections and post-translates by them when either is nonzero. -/
def fixTranslation (s : ZIVState) : ZIVState :=
  let fX := getFixTranslation s.matrix.tx s.viewW (getImageWidth s)
  let fY := getFixTranslation s.matrix.ty s.viewH (getImageHeight s)
  if fX ≠ 0 ∨ fY ≠ 0 then
    {s with matrix := s.matrix.postTranslate fX fY}
  else s

/-- `isImageLargerThanView()`: compares the drawable's intrinsic dimensions
against the view dimensions. -/
def isImageLargerThanView (s : ZIVState) : Bool :=
  match s.drawable with
  | none => false
  | some d =>
      decide (0 < s.viewW ∧ s.viewW < d.1) || decide (0 < s.viewH ∧ s.viewH < d.2)

/-- `isAtVerticalEdge(deltaY)`: true when the image fits vertically, or the
gesture pushes past the top or bottom content edge. -/
def isAtVerticalEdge (s : ZIVState) (deltaY : ℚ) : Bool :=
  let transY := s.matrix.ty
  let imageHeight := getImageHeight s
  if imageHeight ≤ s.viewH then true
  else
    decide (0 ≤ transY ∧ 0 < deltaY) ||
    decide (transY + imageHeight ≤ s.viewH ∧ deltaY < 0)

/-- `scale > minScale || (panEnabled && isImageLargerThanView())`, the
pan-permission test of `handleTouch`. -/
def shouldAllowPan (s : ZIVState) : Bool :=
  decide (s.minScale < s.scale) || (s.panEnabled && isImageLargerThanView s)

/-- Touch events as seen by `handleTouch` after `action and ACTION_MASK`.
`up` is `ACTION_UP` (last pointer), `pointerUp` is `ACTION_POINTER_UP`; the
code handles the two in the same branch. -/
inductive TouchEvent where
  | down (x y : ℚ)
  | pointerDown (x y : ℚ)
  | move (x y : ℚ)
  | up
  | pointerUp
  | cancel
deriving DecidableEq, Repr

/-- `ZoomableImageView.handleTouch`: the `when` block over the masked action,
returning the updated state and the `handled` flag.  The scale/gesture
detector dispatch at the top of the method is modelled separately by
`zivOnScale` and `zivOnDoubleTap`. -/
def handleTouch (s : ZIVState) (ev : TouchEvent) : ZIVState × Bool :=
  match ev with
  | .down x y =>
      let s := {s with last := (x, y), start := (x, y),
                       mode := DRAG, scrollDirection := DIRECTION_NONE}
      (s, shouldAllowPan s)
  | .pointerDown x y =>
      ({s with last := (x, y), mode := ZOOM, scrollDirection := DIRECTION_NONE,
               disallowIntercept := true}, true)
  | .move cx cy =>
      if s.mode = DRAG ∧ shouldAllowPan s = true then
        let dir :=
          if s.scrollDirection = DIRECTION_NONE then
            let dx := |cx - s.start.1|
            let dy := |cy - s.start.2|
            if SCROLL_THRESHOLD < dx ∨ SCROLL_THRESHOLD < dy then
              if dy < dx then DIRECTION_HORIZONTAL else DIRECTION_VERTICAL
            else DIRECTION_NONE
          else s.scrollDirection
        let deltaX := cx - s.last.1
        let deltaY := cy - s.last.2
        let s := {s with scrollDirection := dir}
        let shouldBlock : Bool :=
          if dir = DIRECTION_HORIZONTAL then true
          else if dir = DIRECTION_VERTICAL then !(isAtVerticalEdge s deltaY)
          else false
        if shouldBlock then
          let s := {s with matrix := s.matrix.postTranslate deltaX deltaY}
          let s := fixTranslation s
          ({s with disallowIntercept := true, last := (cx, cy)}, true)
        else
          ({s with disallowIntercept := false, last := (cx, cy)}, false)
      else if s.mode = DRAG then
        ({s with disallowIntercept := false}, false)
      else (s, false)
  | .up =>
      ({s with mode := NONE, scrollDirection := DIRECTION_NONE,
               disallowIntercept := false}, false)
  | .pointerUp =>
      ({s with mode := NONE, scrollDirection := DIRECTION_NONE,
               disallowIntercept := false}, false)
  | .cancel =>
      ({s with mode := NONE, scrollDirection := DIRECTION_NONE,
               disallowIntercept := false}, false)

/-- Fold a touch-event stream through `handleTouch`, keeping the state. -/
def foldTouch (s : ZIVState) (evs : List TouchEvent) : ZIVState :=
  evs.foldl (fun st e => (handleTouch st e).1) s

/-- `ScaleListener.onScale` of `ZoomableImageView`: commits
`scale * detector.scaleFactor` only when it lies in `minScale..maxScale`,
post-scaling about the focus point, fixing translation, re-claiming
interception and notifying the zoom listener with the committed scale. -/
def zivOnScale (s : ZIVState) (factor fx fy : ℚ) : ZIVState × List Ev :=
  if s.zoomEnabled = false then (s, [])
  else
    let newScale := s.scale * factor
    if s.minScale ≤ newScale ∧ newScale ≤ s.maxScale then
      let s := {s with scale := newScale, matrix := s.matrix.postScale factor fx fy}
      let s := fixTranslation s
      ({s with disallowIntercept := true}, [Ev.zoomChanged newScale])
    else (s, [])

/-- `GestureListener.onDoubleTap` of `ZoomableImageView`: above `minScale`
it scales back to `minScale`; otherwise it post-scales by the fixed factor 2
and multiplies the committed scale by 2 (without clamping), then fixes
translation and notifies the zoom listener. -/
def zivOnDoubleTap (s : ZIVState) (ex ey : ℚ) : ZIVState × List Ev :=
  if s.zoomEnabled = false then (s, [])
  else
    let s :=
      if s.minScale < s.scale then
        {s with matrix := s.matrix.postScale (s.minScale / s.scale) ex ey,
                scale := s.minScale}
      else
        {s with matrix := s.matrix.postScale 2 ex ey, scale := s.scale * 2}
    let s := fixTranslation s
    (s, [Ev.zoomChanged s.scale])

/-- `ZoomableImageView.resetZoom`: sets the scale to `minScale` and resets
the matrix; no zoom listener is invoked. -/
def zivResetZoom (s : ZIVState) : ZIVState × List Ev :=
  ({s with scale := s.minScale, matrix := TMatrix.reset}, [])

/-- Translation-bounds predicate: the matrix translation of each axis lies in
the closed interval `[min 0 (viewSize - contentSize), max 0 (viewSize -
contentSize)]` with the content size taken at the current committed scale. -/
def transInBounds (s : ZIVState) : Prop :=
  (min 0 (s.viewW - getImageWidth s) ≤ s.matrix.tx ∧
    s.matrix.tx ≤ max 0 (s.viewW - getImageWidth s)) ∧
  (min 0 (s.viewH - getImageHeight s) ≤ s.matrix.ty ∧
    s.matrix.ty ≤ max 0 (s.viewH - getImageHeight s))

/-! ## `InlinePDFView` global zoom (InlinePDFView.kt 376-426, 553-563) -/

/-- The fields of `InlinePDFView` and its `PDFPageAdapter` touched by the
global scale gesture: the committed global scale, the scale at gesture start,
the scaling flag and pointer count, the RecyclerView's cheap visual scale,
and the adapter (when attached) with its own scale copy and bitmap cache. -/
structure PDFViewState where
  scaleFactor : ℚ
  baseScaleFactor : ℚ
  isScaling : Bool
  pointerCount : ℕ
  visualScaleX : ℚ
  visualScaleY : ℚ
  hasAdapter : Bool
  adapterScale : ℚ
  adapterCache : List (ℕ × ℕ)
deriving DecidableEq, Repr

/-- Kotlin `coerceIn(lo, hi)`. -/
def coerceIn (x lo hi : ℚ) : ℚ :=
  if x < lo then lo else if hi < x then hi else x

/-- `ScaleListener.onScale` of `InlinePDFView`: with two or more pointers,
clamps `scaleFactor * detector.scaleFactor` into `[0.5, 4.0]` and, when the
change exceeds 0.01, commits it, applies the cheap visual scale
`scaleFactor / baseScaleFactor` to the RecyclerView and notifies the zoom
listener. -/
def pdvOnScale (s : PDFViewState) (detectorScaleFactor : ℚ) : PDFViewState × List Ev :=
  if s.pointerCount < 2 then (s, [])
  else
    let newScaleFactor := coerceIn (s.scaleFactor * detectorScaleFactor) (1/2) 4
    if 1/100 < |newScaleFactor - s.scaleFactor| then
      let visualScale := newScaleFactor / s.baseScaleFactor
      ({s with scaleFactor := newScaleFactor,
               visualScaleX := visualScale, visualScaleY := visualScale},
       [Ev.zoomChanged newScaleFactor])
    else (s, [])

/-- `PDFPageAdapter.updateZoom(newZoom)`: stores the new zoom, clears the
whole bitmap cache and triggers `notifyDataSetChanged`. -/
def updateZoom (_a : ℚ × List (ℕ × ℕ)) (newZoom : ℚ) : (ℚ × List (ℕ × ℕ)) × List Ev :=
  ((newZoom, []), [Ev.clearCache, Ev.notifyRerender])

/-- `ScaleListener.onScaleEnd` of `InlinePDFView`: clears the scaling flags,
resets the RecyclerView's visual scale to 1.0, then calls
`pdfAdapter?.updateZoom(scaleFactor)` and finally the gesture-end callback.
The emitted action list records the order of these side effects. -/
def onScaleEnd (s : PDFViewState) : PDFViewState × List Ev :=
  let s₁ := {s with isScaling := false, pointerCount := 0,
                    visualScaleX := 1, visualScaleY := 1}
  if s₁.hasAdapter then
    let r := updateZoom (s₁.adapterScale, s₁.adapterCache) s₁.scaleFactor
    ({s₁ with adapterScale := r.1.1, adapterCache := r.1.2},
     Ev.resetVisualTransform :: (r.2 ++ [Ev.gestureEnd]))
  else (s₁, [Ev.resetVisualTransform, Ev.gestureEnd])

/-! ## Decode lifecycle (InlinePDFView.kt 366-374, 455-499)

`onBindViewHolder` launches each page decode in a fresh
`CoroutineScope(Dispatchers.IO)`; the view's own `coroutineScope` (cancelled
by `cleanup`) is used only for loading.  A decode task therefore carries a
flag recording which scope it belongs to.  `cleanup` cancels the view scope,
recycles and clears the cache, detaches the adapter and closes the renderer.
A decode completes in two steps: the background `renderPage` call (which
fails when the renderer has been closed) and the main-thread dispatch that
binds the bitmap only when the holder's `adapterPosition` still equals the
requested position (`NO_POSITION`, modelled as `none`, once the adapter is
detached). -/

/-- An in-flight page-decode task: requested page, owning scope, and whether
the background render has completed. -/
structure DecodeTask where
  pos : ℕ
  inViewScope : Bool
  rendered : Bool
deriving DecidableEq, Repr

/-- Viewer-session state for the decode lifecycle. -/
structure CState where
  viewScopeActive : Bool
  tasks : List DecodeTask
  rendererOpen : Bool
  adapterAttached : Bool
  binds : List (ℕ × ℕ)
  cache : List (ℕ × ℕ)
deriving DecidableEq, Repr

/-- A freshly loaded viewer: renderer open, adapter attached, nothing in
flight. -/
def initCState : CState := ⟨true, [], true, true, [], []⟩

/-- `onBindViewHolder`'s cache-miss path: launches the page decode in a new
`CoroutineScope(Dispatchers.IO)`, outside the view's own scope. -/
def startDecode (s : CState) (pos : ℕ) : CState :=
  {s with tasks := s.tasks ++ [⟨pos, false, false⟩]}

/-- `InlinePDFView.cleanup`: cancels the view's coroutine scope (which only
removes tasks launched in that scope), hides the overlay, clears the
adapter's cache, detaches the adapter and closes the renderer. -/
def cleanupC (s : CState) : CState :=
  { viewScopeActive := false
    tasks := s.tasks.filter (fun t => !t.inViewScope)
    rendererOpen := false
    adapterAttached := false
    binds := s.binds
    cache := [] }

/-- Background completion of task `i`: when the renderer is open the bitmap
is rendered and stored in the cache (`renderPage`); on a closed renderer
`openPage` throws, the exception is caught, and the task ends with no
effect. -/
def renderStep (s : CState) (i : ℕ) : CState :=
  match s.tasks.get? i with
  | none => s
  | some t =>
      if s.rendererOpen then
        {s with tasks := s.tasks.set i {t with rendered := true},
                cache := cachePut s.cache t.pos t.pos}
      else
        {s with tasks := s.tasks.eraseIdx i}

/-- Main-thread completion of task `i` for a holder currently laid out at
`holderPos`: the decoded bitmap is bound only when the holder's
`adapterPosition` (which is `NO_POSITION` = `none` once the adapter is
detached) still equals the position the decode was requested for; otherwise
the result is discarded. -/
def dispatchStep (s : CState) (i : ℕ) (holderPos : ℕ) : CState :=
  match s.tasks.get? i with
  | none => s
  | some t =>
      if t.rendered then
        let s' := {s with tasks := s.tasks.eraseIdx i}
        let adapterPos : Option ℕ := if s.adapterAttached then some holderPos else none
        if adapterPos = some t.pos then
          {s' with binds := s'.binds ++ [(holderPos, t.pos)]}
        else s'
      else s

/-! ## Concrete states used by witnesses and counterexamples -/

/-- A `ZoomableImageView` in its default configuration (scale 1, bounds
[1, 4], zoom and pan enabled, no drawable). -/
def zivInit : ZIVState :=
  ⟨TMatrix.reset, 1, 1, 4, true, true, (0, 0), (0, 0), NONE, DIRECTION_NONE,
   false, 100, 200, none⟩

/-- A `ZoomableImageView` whose configured bounds are [3, 4] with committed
scale 3 (within bounds), used against the double-tap path. -/
def zivCx : ZIVState :=
  ⟨TMatrix.reset, 3, 3, 4, true, true, (0, 0), (0, 0), NONE, DIRECTION_NONE,
   false, 100, 100, none⟩

/-- An `InlinePDFView` mid-gesture with two pointers down and scale 1. -/
def pdvW : PDFViewState := ⟨1, 1, true, 2, 1, 1, true, 1, []⟩

/-- A web viewer as created by `create` before any document loads
(`currentPage` 1, `totalPages` 0). -/
def webInit : WebViewerState := ⟨1, 0, 1, true⟩

/-- A session with one decode rendered for page 3 and nothing bound yet. -/
def cWitState : CState := ⟨true, [⟨3, false, true⟩], true, true, [], []⟩

/-! # Theorems -/

/-- Evaluation helper: the truncated dimensions of a 3x1 page at scale 1.5. -/
lemma renderDims_ex1 : renderDims 3 1 (3/2) = (4, 1) := by
  have h1 : ratTrunc ((3:ℚ) * (3/2)) = 4 := by norm_num [ratTrunc]; try decide
  have h2 : ratTrunc ((3:ℚ)/2) = 1 := by norm_num [ratTrunc]; try decide
  simp [renderDims, h1, h2]

/-- Evaluation helper: a 100x10000 page at scale 1 keeps its full height. -/
lemma renderDims_ex2 : renderDims 100 10000 1 = (100, 10000) := by
  have h1 : ratTrunc ((100:ℚ)) = 100 := by norm_num [ratTrunc]; try decide
  have h2 : ratTrunc ((10000:ℚ)) = 10000 := by norm_num [ratTrunc]; try decide
  simp [renderDims, h1, h2]

/-- Evaluation helper: the spec's rounded dimensions of a 3x1 page at scale
1.5. -/
lemma specDims_ex1 : specDims 3 1 (3/2) = (5, 2) := by
  have h1 : ratRound ((3:ℚ) * (3/2)) = 5 := by norm_num [ratRound, ratFloor]; try decide
  have h2 : ratRound ((3:ℚ)/2) = 2 := by norm_num [ratRound, ratFloor]; try decide
  simp [specDims, h1, h2]

/-- Claim C2, counterexample: inserting pages 0..5 sequentially into the
empty capacity-5 cache does NOT leave exactly the 3 most recent pages
retrievable with the 3 oldest empty — page 2 (the third oldest) is still
retrievable, because the batch eviction runs before the sixth insertion and
leaves 3 entries, so 4 entries remain after it. -/
theorem c2_counterexample :
    ¬ (cacheGet cacheInsertSeq 5 ≠ none ∧ cacheGet cacheInsertSeq 4 ≠ none ∧
       cacheGet cacheInsertSeq 3 ≠ none ∧ cacheGet cacheInsertSeq 2 = none ∧
       cacheGet cacheInsertSeq 1 = none ∧ cacheGet cacheInsertSeq 0 = none) := by
  decide

/-- Claim C2, amended: the cache never exceeds its capacity of 5 entries
after any insertion; inserting pages 0..5 sequentially into an empty cache
evicts in one batch down to 3 entries before the sixth insertion, so the 4
most recently inserted pages remain retrievable and the 2 oldest return
empty. -/
theorem c2_cache_bounds :
    (∀ (c : List (ℕ × ℕ)) (k v : ℕ), (cachePut c k v).length ≤ 5) ∧
    cacheGet cacheInsertSeq 5 = some 5 ∧ cacheGet cacheInsertSeq 4 = some 4 ∧
    cacheGet cacheInsertSeq 3 = some 3 ∧ cacheGet cacheInsertSeq 2 = some 2 ∧
    cacheGet cacheInsertSeq 1 = none ∧ cacheGet cacheInsertSeq 0 = none ∧
    cacheInsertSeq.length = 4 := by
  refine ⟨?_, by decide, by decide, by decide, by decide, by decide, by decide, by decide⟩
  intro c k v
  unfold cachePut
  split
  · rename_i h
    have hd : (c.drop (c.length - 3)).length = 3 := by
      rw [List.length_drop]; omega
    have hf := List.length_filter_le (fun e => e.1 != k) (c.drop (c.length - 3))
    rw [List.length_append]
    simp only [List.length_singleton]
    omega
  · rename_i h
    have hf := List.length_filter_le (fun e => e.1 != k) c
    rw [List.length_append]
    simp only [List.length_singleton]
    omega

/-- Claim C3, counterexample: on the web fallback, `goToPage` with a page
outside `[1, totalPages]` does NOT leave the viewer state unchanged — on the
freshly created viewer (`currentPage` 1, `totalPages` 0) requesting page 2
commits `currentPage = 2`. -/
theorem c3_counterexample :
    webGoToPage webInit 2 ≠ webInit ∧ (webGoToPage webInit 2).currentPage = 2 ∧
    ¬ (1 ≤ (2 : ℤ) ∧ (2 : ℤ) ≤ (webInit.totalPages : ℤ)) := by
  refine ⟨?_, rfl, by decide⟩
  intro h
  have : (webGoToPage webInit 2).currentPage = webInit.currentPage := by rw [h]
  simp [webGoToPage, webInit] at this

/-- Claim C3, amended: on the Android viewer, `goToPage(p)` followed by
`getState()` reports `currentPage = p` for every `p` in `[1, totalPages]`,
and for `p` outside that range `goToPage` leaves the state unchanged (and
performs no callback); the web fallback's `goToPage` instead commits
`currentPage = p` unconditionally, with no range check. -/
theorem c3_goToPage_roundtrip :
    ∀ (s : AndroidPdfState) (v : WebViewerState) (p : ℤ),
      (1 ≤ p → p ≤ (s.totalPages : ℤ) → (getState (goToPage s p)).currentPage = p) ∧
      (¬ (1 ≤ p ∧ p ≤ (s.totalPages : ℤ)) → goToPage s p = s) ∧
      (webGoToPage v p).currentPage = p := by
  intro s v p
  refine ⟨?_, ?_, rfl⟩
  · intro h1 h2
    unfold goToPage getState
    have hc : 0 ≤ p - 1 ∧ p - 1 < (s.totalPages : ℤ) := by omega
    rw [if_pos hc]
    simp
  · intro h
    unfold goToPage
    rw [if_neg]
    omega

/-- Claim C3, witness: on a 10-page Android viewer sitting at page 1,
`goToPage 5` then `getState` reports page 5, and `goToPage 99` leaves the
state untouched. -/
theorem c3_goToPage_roundtrip_witness :
    (getState (goToPage ⟨0, 10, 1, false⟩ 5)).currentPage = 5 ∧
    goToPage ⟨0, 10, 1, false⟩ 99 = ⟨0, 10, 1, false⟩ :=
  ⟨(c3_goToPage_roundtrip ⟨0, 10, 1, false⟩ webInit 5).1 (by decide) (by decide),
   (c3_goToPage_roundtrip ⟨0, 10, 1, false⟩ webInit 99).2.1 (by decide)⟩

/-- Claim C7, counterexample: the rasterizer's dimensions are not
`round(pageIntrinsicSize * targetScale)` — for a 3x1-point page at scale 1.5
the code computes (4, 1) by truncation while the spec's rounding gives
(5, 2); all values are exact in binary floating point. -/
theorem c7_counterexample :
    renderDims 3 1 (3/2) ≠ specDims 3 1 (3/2) ∧
    renderDims 3 1 (3/2) = (4, 1) ∧ specDims 3 1 (3/2) = (5, 2) := by
  refine ⟨?_, renderDims_ex1, specDims_ex1⟩
  rw [renderDims_ex1, specDims_ex1]
  decide

/-- Claim C7, amended: target pixel dimensions are
`truncate(pageIntrinsicSize * targetScale)` (toward zero, not rounded); only
the width is capped at 8192 — the width component never exceeds 8192 and,
when the cap fires, the height is rescaled by `8192 / width` and truncated
again — while the height axis is never capped and can exceed 8192 (a
100x10000 page at scale 1 keeps height 10000). -/
theorem c7_render_dims :
    (∀ pw ph s : ℚ, (renderDims pw ph s).1 ≤ 8192) ∧
    renderDims 3 1 (3/2) = (4, 1) ∧
    renderDims 100 10000 1 = (100, 10000) := by
  refine ⟨?_, renderDims_ex1, renderDims_ex2⟩
  intro pw ph s
  by_cases h : 8192 < ratTrunc (pw * s)
  · simp [renderDims, h]
  · simp [renderDims, h]
    exact le_of_not_lt h

/-- Claim C8, counterexample: the web fallback's `resetZoom` emits no
`zoomChanged` event at all, contradicting the required exactly-one emission
per call. -/
theorem c8_counterexample :
    ¬ countZoomEvents (webResetZoom ⟨1, 0, 2, false⟩).2 = 1 := by
  decide

/-- Claim C8, amended: `resetZoom` is idempotent in every implementation —
two consecutive calls both settle the iOS scale and the web zoom at 1.0, and
the Android image view's scale at its `minScale` — but only the iOS
implementation emits `zoomChanged{zoom: 1.0}`, exactly once per call; the
web fallback and the Android image view emit no event. -/
theorem c8_reset_zoom :
    ∀ (i : IOSPdfState) (v : WebViewerState) (z : ZIVState),
      (iosResetZoom i).1.scaleFactor = 1 ∧
      (iosResetZoom (iosResetZoom i).1).1.scaleFactor = 1 ∧
      (iosResetZoom i).2 = [Ev.zoomChanged 1] ∧
      (iosResetZoom (iosResetZoom i).1).2 = [Ev.zoomChanged 1] ∧
      (webResetZoom v).1.zoom = 1 ∧
      (webResetZoom (webResetZoom v).1).1.zoom = 1 ∧
      (webResetZoom v).2 = [] ∧
      (zivResetZoom z).1.scale = z.minScale ∧
      (zivResetZoom (zivResetZoom z).1).1.scale = z.minScale ∧
      (zivResetZoom z).2 = [] := by
  intro i v z
  exact ⟨rfl, rfl, rfl, rfl, rfl, rfl, rfl, rfl, rfl, rfl⟩

/-- Helper: `fixTranslation` never changes the committed scale. -/
lemma fixTranslation_scale (s : ZIVState) : (fixTranslation s).scale = s.scale := by
  simp only [fixTranslation]
  split_ifs <;> rfl

/-- Helper: Kotlin's `coerceIn(lo, hi)` lands in `[lo, hi]` whenever
`lo ≤ hi`. -/
lemma coerceIn_mem (x lo hi : ℚ) (h : lo ≤ hi) :
    lo ≤ coerceIn x lo hi ∧ coerceIn x lo hi ≤ hi := by
  unfold coerceIn
  split_ifs <;> constructor <;> linarith

/-- Claim C1, counterexample: with configured bounds `[3, 4]` and committed
scale 3 (inside the bounds), a double tap commits and reports scale 6,
outside `[minScale, maxScale]` — the double-tap zoom-in multiplies by 2
without clamping. -/
theorem c1_counterexample :
    zivCx.minScale ≤ zivCx.scale ∧ zivCx.scale ≤ zivCx.maxScale ∧
    (zivOnDoubleTap zivCx 0 0).1.scale = 6 ∧
    (zivOnDoubleTap zivCx 0 0).1.maxScale = 4 ∧
    (zivOnDoubleTap zivCx 0 0).2 = [Ev.zoomChanged 6] := by
  refine ⟨by norm_num [zivCx], by norm_num [zivCx], ?_, ?_, ?_⟩ <;>
    norm_num [zivOnDoubleTap, zivCx, fixTranslation, getFixTranslation,
      getImageWidth, getImageHeight, TMatrix.postScale, TMatrix.reset]

/-- Claim C1, amended: every committed scale stays within bounds on the
pinch paths — the image view's pinch step rejects out-of-range candidates
and the viewer's global pinch step clamps into `[0.5, 4.0]` — and the
double-tap toggle stays within `[minScale, maxScale]` under the additional
assumption `2 * minScale ≤ maxScale` (true for the default bounds `[1, 4]`);
without that assumption the double-tap zoom-in is not clamped. -/
theorem c1_scale_bounds :
    ∀ (z : ZIVState) (p : PDFViewState) (f fx fy ex ey d : ℚ),
      (z.minScale ≤ z.scale → z.scale ≤ z.maxScale →
        z.minScale ≤ (zivOnScale z f fx fy).1.scale ∧
        (zivOnScale z f fx fy).1.scale ≤ z.maxScale) ∧
      (z.minScale ≤ z.scale → z.scale ≤ z.maxScale → 0 ≤ z.minScale →
        2 * z.minScale ≤ z.maxScale →
        z.minScale ≤ (zivOnDoubleTap z ex ey).1.scale ∧
        (zivOnDoubleTap z ex ey).1.scale ≤ z.maxScale) ∧
      (1/2 ≤ p.scaleFactor → p.scaleFactor ≤ 4 →
        1/2 ≤ (pdvOnScale p d).1.scaleFactor ∧
        (pdvOnScale p d).1.scaleFactor ≤ 4) := by
  intro z p f fx fy ex ey d
  refine ⟨?_, ?_, ?_⟩
  · intro h1 h2
    simp only [zivOnScale]
    split_ifs with hz hr
    · exact ⟨h1, h2⟩
    · simpa [fixTranslation_scale] using hr
    · exact ⟨h1, h2⟩
  · intro h1 h2 h0 h3
    simp only [zivOnDoubleTap]
    split_ifs with hz hlt
    · exact ⟨h1, h2⟩
    · simp only [fixTranslation_scale]
      exact ⟨le_refl _, by linarith⟩
    · have hs : z.scale = z.minScale := le_antisymm (not_lt.mp hlt) h1
      simp only [fixTranslation_scale]
      constructor <;> simp only [hs] <;> linarith
  · intro h1 h2
    simp only [pdvOnScale]
    split_ifs with hp hc
    · exact ⟨h1, h2⟩
    · exact coerceIn_mem (p.scaleFactor * d) (1/2) 4 (by norm_num)
    · exact ⟨h1, h2⟩

/-- Claim C1, witness: from the default configuration (scale 1, bounds
[1, 4]) a committed pinch step and a double tap both land in bounds, and the
viewer's global pinch step stays within `[0.5, 4.0]`. -/
theorem c1_scale_bounds_witness :
    (zivInit.minScale ≤ (zivOnScale zivInit 3 0 0).1.scale ∧
      (zivOnScale zivInit 3 0 0).1.scale ≤ zivInit.maxScale) ∧
    (zivInit.minScale ≤ (zivOnDoubleTap zivInit 0 0).1.scale ∧
      (zivOnDoubleTap zivInit 0 0).1.scale ≤ zivInit.maxScale) ∧
    (1/2 ≤ (pdvOnScale pdvW 10).1.scaleFactor ∧
      (pdvOnScale pdvW 10).1.scaleFactor ≤ 4) := by
  obtain ⟨ha, hb, hc⟩ := c1_scale_bounds zivInit pdvW 3 0 0 0 0 10
  exact ⟨ha (by norm_num [zivInit]) (by norm_num [zivInit]),
         hb (by norm_num [zivInit]) (by norm_num [zivInit])
            (by norm_num [zivInit]) (by norm_num [zivInit]),
         hc (by norm_num [pdvW]) (by norm_num [pdvW])⟩

/-- Claim C5: when the pinch gesture settles, `onScaleEnd` first resets the
cheap visual transform to identity, then fully clears the page bitmap cache,
then triggers the re-render, in that order, and the adapter re-renders at
the settled scale. -/
theorem c5_scale_settle_order :
    ∀ s : PDFViewState, s.hasAdapter = true →
      (onScaleEnd s).2 =
        [Ev.resetVisualTransform, Ev.clearCache, Ev.notifyRerender, Ev.gestureEnd] ∧
      (onScaleEnd s).1.visualScaleX = 1 ∧ (onScaleEnd s).1.visualScaleY = 1 ∧
      (onScaleEnd s).1.adapterCache = [] ∧
      (onScaleEnd s).1.adapterScale = s.scaleFactor := by
  intro s h
  refine ⟨?_, ?_, ?_, ?_, ?_⟩ <;> simp [onScaleEnd, updateZoom, h]

/-- Claim C5, witness: the settle sequence on a concrete mid-gesture
viewer. -/
theorem c5_scale_settle_order_witness :
    (onScaleEnd pdvW).2 =
      [Ev.resetVisualTransform, Ev.clearCache, Ev.notifyRerender, Ev.gestureEnd] ∧
    (onScaleEnd pdvW).1.visualScaleX = 1 ∧ (onScaleEnd pdvW).1.visualScaleY = 1 ∧
    (onScaleEnd pdvW).1.adapterCache = [] ∧
    (onScaleEnd pdvW).1.adapterScale = pdvW.scaleFactor :=
  c5_scale_settle_order pdvW rfl

/-- Claim C6: an asynchronous decode result is bound only when the view
holder's current position still equals the page the decode was requested
for; a mismatching result is discarded (no bind), and a matching result on a
live adapter is bound. -/
theorem c6_stale_result_guard :
    ∀ (s : CState) (i hp : ℕ) (t : DecodeTask),
      s.tasks.get? i = some t →
      (hp ≠ t.pos → (dispatchStep s i hp).binds = s.binds) ∧
      (s.adapterAttached = true → t.rendered = true → hp = t.pos →
        (dispatchStep s i hp).binds = s.binds ++ [(hp, t.pos)]) := by
  intro s i hp t ht
  constructor
  · intro hne
    unfold dispatchStep
    rw [ht]
    cases hA : s.adapterAttached <;> simp_all
    all_goals split_ifs <;> rfl
  · intro hA hr he
    unfold dispatchStep
    rw [ht]
    simp [hA, hr, he]

/-- Claim C6, witness: a rendered decode for page 3 is discarded when the
holder moved to position 2 and bound when the holder still shows 3. -/
theorem c6_stale_result_guard_witness :
    (dispatchStep cWitState 0 2).binds = [] ∧
    (dispatchStep cWitState 0 3).binds = [(3, 3)] :=
  ⟨(c6_stale_result_guard cWitState 0 2 ⟨3, false, true⟩ rfl).1 (by decide),
   (c6_stale_result_guard cWitState 0 3 ⟨3, false, true⟩ rfl).2 rfl rfl rfl⟩

/-- Claim C4, counterexample: a page decode started by `onBindViewHolder`
lives in its own IO coroutine scope, so `cleanup` — which only cancels the
view's own scope — leaves it in flight: destroying the viewer does NOT
cancel every in-flight decode task. -/
theorem c4_counterexample :
    (startDecode initCState 0).tasks = [⟨0, false, false⟩] ∧
    (cleanupC (startDecode initCState 0)).tasks = [⟨0, false, false⟩] ∧
    (cleanupC (startDecode initCState 0)).tasks ≠ [] := by
  decide

/-- Helper: background render completion never changes the applied binds. -/
lemma renderStep_binds (s : CState) (i : ℕ) : (renderStep s i).binds = s.binds := by
  unfold renderStep
  rcases ht : s.tasks.get? i with _ | t
  · rfl
  · split_ifs <;> rfl

/-- Helper: background render completion never re-attaches the adapter. -/
lemma renderStep_adapterAttached (s : CState) (i : ℕ) :
    (renderStep s i).adapterAttached = s.adapterAttached := by
  unfold renderStep
  rcases ht : s.tasks.get? i with _ | t
  · rfl
  · split_ifs <;> rfl

/-- Helper: with the adapter detached, the dispatch step never binds — the
holder's adapter position is `NO_POSITION` and the guard fails. -/
lemma dispatchStep_binds_of_detached (s : CState) (i hp : ℕ)
    (h : s.adapterAttached = false) : (dispatchStep s i hp).binds = s.binds := by
  unfold dispatchStep
  rcases ht : s.tasks.get? i with _ | t
  · simp [ht]
  · simp only [ht]
    split_ifs <;> simp_all

/-- Claim C4, amended: `cleanup` closes the document handle, detaches the
adapter and clears the cache, and no decode completion mutates the
torn-down view: after `cleanup`, neither the background render step (which
fails on the closed renderer) nor the main-thread dispatch step (whose
holder position guard fails on the detached adapter) ever applies a bind,
in any completion interleaving — but the in-flight decode tasks themselves
are not cancelled (see the counterexample). -/
theorem c4_teardown_safety :
    ∀ (s : CState) (i j hp : ℕ),
      (cleanupC s).rendererOpen = false ∧
      (cleanupC s).adapterAttached = false ∧
      (cleanupC s).cache = [] ∧
      (cleanupC s).binds = s.binds ∧
      (renderStep (cleanupC s) i).binds = s.binds ∧
      (dispatchStep (cleanupC s) i hp).binds = s.binds ∧
      (dispatchStep (renderStep (cleanupC s) i) j hp).binds = s.binds := by
  intro s i j hp
  refine ⟨rfl, rfl, rfl, rfl, renderStep_binds _ _,
    dispatchStep_binds_of_detached _ _ _ rfl, ?_⟩
  have h2 : (renderStep (cleanupC s) i).adapterAttached = false :=
    (renderStep_adapterAttached _ _).trans rfl
  exact (dispatchStep_binds_of_detached _ _ _ h2).trans (renderStep_binds _ _)

/-- Claim C9: every touch stream whose last event is the final pointer's up
(or a pointer up, or a cancel) leaves the gesture arbiter in mode `NONE`
with the scroll-direction classification reset and the ancestor
disallow-intercept claim released. -/
theorem c9_gesture_release :
    ∀ (s : ZIVState) (evs : List TouchEvent) (ev : TouchEvent),
      ev = TouchEvent.up ∨ ev = TouchEvent.pointerUp ∨ ev = TouchEvent.cancel →
      (foldTouch s (evs ++ [ev])).mode = NONE ∧
      (foldTouch s (evs ++ [ev])).scrollDirection = DIRECTION_NONE ∧
      (foldTouch s (evs ++ [ev])).disallowIntercept = false := by
  intro s evs ev hev
  have hsplit : foldTouch s (evs ++ [ev]) = (handleTouch (foldTouch s evs) ev).1 := by
    simp [foldTouch]
  rw [hsplit]
  rcases hev with h | h | h <;> subst h <;> exact ⟨rfl, rfl, rfl⟩

/-- Claim C9, witness: a single-event stream ending in the last pointer's
up, from the default state. -/
theorem c9_gesture_release_witness :
    (foldTouch zivInit ([] ++ [TouchEvent.up])).mode = NONE ∧
    (foldTouch zivInit ([] ++ [TouchEvent.up])).scrollDirection = DIRECTION_NONE ∧
    (foldTouch zivInit ([] ++ [TouchEvent.up])).disallowIntercept = false :=
  c9_gesture_release zivInit [] TouchEvent.up (Or.inl rfl)

/-- Helper: the correction returned by `getFixTranslation` lands the
translation inside `[min 0 (viewSize - contentSize), max 0 (viewSize -
contentSize)]`. -/
lemma getFixTranslation_mem (t v c : ℚ) :
    min 0 (v - c) ≤ t + getFixTranslation t v c ∧
    t + getFixTranslation t v c ≤ max 0 (v - c) := by
  unfold getFixTranslation
  rcases le_or_lt c v with h | h
  · have h0 : (0:ℚ) ≤ v - c := by linarith
    rw [min_eq_left h0, max_eq_right h0]
    simp only [if_pos h]
    split_ifs with h1 h2 <;> constructor <;> linarith
  · have hne : ¬ c ≤ v := not_le.mpr h
    have h0 : v - c ≤ (0:ℚ) := by linarith
    rw [min_eq_right h0, max_eq_left h0]
    simp only [if_neg hne]
    split_ifs with h1 h2 <;> constructor <;> linarith

/-- Helper: the content size is unchanged by a matrix-only update. -/
lemma getImageWidth_matrix (s : ZIVState) (m : TMatrix) :
    getImageWidth {s with matrix := m} = getImageWidth s := rfl

/-- Helper: the content size is unchanged by a matrix-only update. -/
lemma getImageHeight_matrix (s : ZIVState) (m : TMatrix) :
    getImageHeight {s with matrix := m} = getImageHeight s := rfl

/-- Helper: after `fixTranslation` both translation components are within
the translation bounds. -/
lemma fixTranslation_inBounds (s : ZIVState) : transInBounds (fixTranslation s) := by
  have hx := getFixTranslation_mem s.matrix.tx s.viewW (getImageWidth s)
  have hy := getFixTranslation_mem s.matrix.ty s.viewH (getImageHeight s)
  simp only [fixTranslation]
  split_ifs with h
  · unfold transInBounds
    rw [getImageWidth_matrix, getImageHeight_matrix]
    exact ⟨⟨hx.1, hx.2⟩, ⟨hy.1, hy.2⟩⟩
  · push_neg at h
    unfold transInBounds
    rw [h.1, add_zero] at hx
    rw [h.2, add_zero] at hy
    exact ⟨⟨hx.1, hx.2⟩, ⟨hy.1, hy.2⟩⟩

/-- Helper: the translation bounds ignore the interception flag. -/
lemma transInBounds_set_disallow (s : ZIVState) (b : Bool) :
    transInBounds {s with disallowIntercept := b} ↔ transInBounds s := Iff.rfl

/-- Helper: the translation bounds ignore the interception flag and the
last-touch point. -/
lemma transInBounds_set_last (s : ZIVState) (b : Bool) (p : ℚ × ℚ) :
    transInBounds {s with disallowIntercept := b, last := p} ↔ transInBounds s :=
  Iff.rfl

/-- Claim C10: after any touch event through `handleTouch` and after any
pinch step through the image view's `onScale`, either the matrix is left
untouched or the committed translation of each axis lies within
`[min 0 (viewSize - contentSize), max 0 (viewSize - contentSize)]` — every
pan translation and pinch-scale update ends in `fixTranslation`, which
clamps the translation into that interval. -/
theorem c10_translation_bounds :
    ∀ (s : ZIVState) (ev : TouchEvent) (f px py : ℚ),
      ((handleTouch s ev).1.matrix = s.matrix ∨ transInBounds (handleTouch s ev).1) ∧
      ((zivOnScale s f px py).1.matrix = s.matrix ∨
        transInBounds (zivOnScale s f px py).1) := by
  intro s ev f px py
  constructor
  · cases ev with
    | down x y => exact Or.inl rfl
    | pointerDown x y => exact Or.inl rfl
    | up => exact Or.inl rfl
    | pointerUp => exact Or.inl rfl
    | cancel => exact Or.inl rfl
    | move cx cy =>
      simp only [handleTouch]
      by_cases hm : s.mode = DRAG ∧ shouldAllowPan s = true
      · rw [if_pos hm]
        split_ifs <;>
          first
          | exact Or.inl rfl
          | exact Or.inr ((transInBounds_set_last _ _ _).mpr (fixTranslation_inBounds _))
      · rw [if_neg hm]
        split_ifs <;> exact Or.inl rfl
  · simp only [zivOnScale]
    split_ifs <;>
      first
      | exact Or.inl rfl
      | exact Or.inr ((transInBounds_set_disallow _ _).mpr (fixTranslation_inBounds _))

end InlinePDF
